import Mathlib

/-!
Verification development for the transcript-evaluation accreditation
subsystem (`Transcript.py`).  The core under study is the function
`check_accreditation` — an `lru_cache(maxsize=1000)`-memoized facade that
sleeps for `random.uniform(1, 3)` time units, dispatches on the country
string to one of six registry adapters, and converts every exception to
the boolean `False` — together with the six adapter functions
`check_ugc_india`, `check_hec_pakistan`, `check_moe_saudi`,
`check_anabin_germany`, `check_nuc_nigeria` and `check_ugc_bangladesh`.

External HTTP responses are modelled as explicit registry inputs: each
adapter receives the data the network would have produced (`Except` for
fallible fetches), so an adapter is a pure function of its registry's
state.  The Python exception mechanism is modelled by `Except PyErr`.
-/

/-- Python's `needle.isPrefix-like` check on character lists:
`strStarts n h` is true when `n` is an initial segment of `h`. -/
def strStarts : List Char → List Char → Bool
  | [], _ => true
  | _ :: _, [] => false
  | a :: as, b :: bs => a == b && strStarts as bs

/-- Substring search on character lists: true when `needle` occurs
contiguously anywhere in the haystack. -/
def strFind (needle : List Char) : List Char → Bool
  | [] => strStarts needle []
  | c :: cs => strStarts needle (c :: cs) || strFind needle cs

/-- Python's `needle in hay` for strings (substring containment). -/
def pyIn (needle hay : String) : Bool :=
  strFind needle.data hay.data

/-- Python's `str.lower()` (per-character lowercasing). -/
def pyLower (s : String) : String :=
  String.mk (s.data.map Char.toLower)

/-- The exceptions the adapters can raise: a network/HTTP failure from
`requests`, the `TypeError` from subscripting `None` when an expected
markup element is missing, and `re.error` from compiling an invalid
regular-expression pattern. -/
inductive PyErr where
  | netError
  | typeError
  | reError
deriving DecidableEq

/-- `COUNTRIES` from the source configuration section. -/
def COUNTRIES : List String :=
  ["India", "Pakistan", "Saudi Arabia", "Germany", "Nigeria", "Bangladesh"]

/-- The UGC India form page as seen by `check_ugc_india` after
`BeautifulSoup` parsing: `soup.find('input', {'id': ...})` yields the
field's value when the element is present and `None` otherwise. -/
structure FormPage where
  viewstate : Option String
  eventval : Option String
deriving DecidableEq

/-- State of the UGC India registry: the result of GETting the form page
(parsed), and the text of the POST response as a function of the
viewstate, eventvalidation and institution-name form fields. -/
structure IndiaRegistry where
  formPage : Except PyErr FormPage
  searchResult : String → String → String → Except PyErr String

/-- State of the HEC Pakistan registry: the texts of the elements
selected by `div.university-name` (an `Except` because the GET itself
can fail). -/
structure PakistanRegistry where
  divs : Except PyErr (List String)

/-- State of the MOE Saudi registry: the full response body. -/
structure SaudiRegistry where
  body : Except PyErr String

/-- State of the Anabin (Germany) registry: the response body as a
function of the requested URL (the institution name is interpolated
into the URL, so the response may depend on it). -/
structure GermanyRegistry where
  respond : String → Except PyErr String

/-- State of the NUC Nigeria registry: the full response body. -/
structure NigeriaRegistry where
  body : Except PyErr String

/-- State of the UGC Bangladesh registry: the texts of the list items
selected by `div.content-body li`. -/
structure BangladeshRegistry where
  items : Except PyErr (List String)

/-- The combined external world: one registry per country. -/
structure World where
  india : IndiaRegistry
  pakistan : PakistanRegistry
  saudi : SaudiRegistry
  germany : GermanyRegistry
  nigeria : NigeriaRegistry
  bangladesh : BangladeshRegistry

/-- `check_ugc_india`: fetch the form page, read the `__VIEWSTATE` and
`__EVENTVALIDATION` hidden fields (subscripting a missing element raises
`TypeError`), POST the search form, and report absence of the literal
"No College Found" in the response. -/
def check_ugc_india (reg : IndiaRegistry) (institution : String) :
    Except PyErr Bool := do
  let page ← reg.formPage
  let vs ← match page.viewstate with
    | some v => Except.ok v
    | none => Except.error PyErr.typeError
  let ev ← match page.eventval with
    | some v => Except.ok v
    | none => Except.error PyErr.typeError
  let resp ← reg.searchResult vs ev institution
  Except.ok (! pyIn "No College Found" resp)

/-- An atom of the regular-expression fragment exercised by the source:
a literal character or the `.` wildcard.  Grouping parentheses only
bracket a sequence (the source applies no quantifiers), so a parsed
pattern flattens to a list of atoms. -/
inductive RAtom where
  | dot
  | lit (c : Char)
deriving DecidableEq

/-- Parser for the regex fragment used via `re.search(institution, ...)`:
plain characters match literally, `.` is the wildcard, and parentheses
open and close groups.  Unbalanced parentheses are the `re.error` cases
(`missing )` / `unbalanced parenthesis`), mirroring Python's `re`
compiler on this fragment. -/
def parseRe : List Char → Nat → Except Unit (List RAtom)
  | [], 0 => Except.ok []
  | [], _ + 1 => Except.error ()
  | '(' :: rest, depth => parseRe rest (depth + 1)
  | ')' :: _, 0 => Except.error ()
  | ')' :: rest, depth + 1 => parseRe rest depth
  | '.' :: rest, depth => do Except.ok (RAtom.dot :: (← parseRe rest depth))
  | c :: rest, depth => do Except.ok (RAtom.lit c :: (← parseRe rest depth))

/-- Anchored match of a flattened pattern against the start of a string,
case-insensitively (the source passes `re.I`); `.` matches any character
except a newline. -/
def matchHere : List RAtom → List Char → Bool
  | [], _ => true
  | _ :: _, [] => false
  | RAtom.dot :: ps, c :: cs => (c != '\n') && matchHere ps cs
  | RAtom.lit a :: ps, c :: cs =>
      (Char.toLower a == Char.toLower c) && matchHere ps cs

/-- `re.search`: try the anchored match at every position. -/
def reSearch (ps : List RAtom) : List Char → Bool
  | [] => matchHere ps []
  | c :: cs => matchHere ps (c :: cs) || reSearch ps cs

/-- One evaluation of `re.search(institution, div.text, re.I)`:
compiling an invalid pattern raises `re.error`. -/
def hecTryMatch (institution divText : String) : Except PyErr Bool :=
  match parseRe institution.data 0 with
  | Except.error _ => Except.error PyErr.reError
  | Except.ok ps => Except.ok (reSearch ps divText.data)

/-- Python's `any(...)` over a generator whose elements can raise:
elements are produced lazily, so an exception surfaces only if the
corresponding element is reached. -/
def anyE {α : Type} (f : α → Except PyErr Bool) : List α → Except PyErr Bool
  | [] => Except.ok false
  | a :: as => do
      let b ← f a
      if b then Except.ok true else anyE f as

/-- `check_hec_pakistan`: fetch the listing page and test
`any(re.search(institution, div.text, re.I) for div in ...)`. -/
def check_hec_pakistan (reg : PakistanRegistry) (institution : String) :
    Except PyErr Bool := do
  let divs ← reg.divs
  anyE (hecTryMatch institution) divs

/-- `check_moe_saudi`: case-insensitive substring containment of the
institution name in the full response body. -/
def check_moe_saudi (reg : SaudiRegistry) (institution : String) :
    Except PyErr Bool := do
  let body ← reg.body
  Except.ok (pyIn (pyLower institution) (pyLower body))

/-- The Anabin search URL with the institution name interpolated as the
`name` query parameter (the source's f-string). -/
def anabinUrl (institution : String) : String :=
  "https://anabin.kmk.org/no_cache/filter/institutionen.html?search=1&name="
    ++ institution

/-- `check_anabin_germany`: GET the search URL for the institution and
report absence of the literal "Keine Treffer gefunden". -/
def check_anabin_germany (reg : GermanyRegistry) (institution : String) :
    Except PyErr Bool := do
  let body ← reg.respond (anabinUrl institution)
  Except.ok (! pyIn "Keine Treffer gefunden" body)

/-- `check_nuc_nigeria`: case-insensitive substring containment of the
institution name in the full response body. -/
def check_nuc_nigeria (reg : NigeriaRegistry) (institution : String) :
    Except PyErr Bool := do
  let body ← reg.body
  Except.ok (pyIn (pyLower institution) (pyLower body))

/-- `check_ugc_bangladesh`: case-insensitive substring containment of
the institution name in any selected list item. -/
def check_ugc_bangladesh (reg : BangladeshRegistry) (institution : String) :
    Except PyErr Bool := do
  let items ← reg.items
  Except.ok (items.any fun li => pyIn (pyLower institution) (pyLower li))

/-- The dispatch chain inside `check_accreditation`'s `try` block: the
`if country == ... / elif ... / return False` ladder.  An unmatched
country reaches the trailing `return False`, which is a normal return,
not an exception. -/
def dispatch (w : World) (institution country : String) : Except PyErr Bool :=
  if country = "India" then check_ugc_india w.india institution
  else if country = "Pakistan" then check_hec_pakistan w.pakistan institution
  else if country = "Saudi Arabia" then check_moe_saudi w.saudi institution
  else if country = "Germany" then check_anabin_germany w.germany institution
  else if country = "Nigeria" then check_nuc_nigeria w.nigeria institution
  else if country = "Bangladesh" then check_ugc_bangladesh w.bangladesh institution
  else Except.ok false

/-- The `try/except` wrapper of `check_accreditation`: any exception
raised during the check is absorbed and the call returns `False`. -/
def check_accreditation_body (w : World) (institution country : String) : Bool :=
  match dispatch w institution country with
  | Except.ok b => b
  | Except.error _ => false

/-- Observable effects of one facade call: the rate-limiting sleep with
its drawn duration, and one outbound registry lookup (one adapter
invocation) tagged with its country. -/
inductive Event where
  | sleep (d : ℚ)
  | netCall (country : String)
deriving DecidableEq

/-- The outbound-lookup events of one un-cached facade call: a registry
lookup fires exactly when the dispatch ladder reaches an adapter. -/
def netEvents (country : String) : List Event :=
  if country = "India" ∨ country = "Pakistan" ∨ country = "Saudi Arabia" ∨
      country = "Germany" ∨ country = "Nigeria" ∨ country = "Bangladesh" then
    [Event.netCall country]
  else []

/-- Association-list lookup keyed on the left component. -/
def findVal {K V : Type} [DecidableEq K] : List (K × V) → K → Option V
  | [], _ => none
  | (k', v) :: rest, k => if k = k' then some v else findVal rest k

/-- Remove every entry with the given key. -/
def removeKey {K V : Type} [DecidableEq K] : List (K × V) → K → List (K × V)
  | [], _ => []
  | (k', v) :: rest, k =>
      if k = k' then removeKey rest k else (k', v) :: removeKey rest k

/-- `lru_cache` lookup on a most-recent-first entry list: a hit returns
the cached value and moves the entry to the front (it becomes the most
recently used). -/
def lruGet {K V : Type} [DecidableEq K] (l : List (K × V)) (k : K) :
    Option (V × List (K × V)) :=
  match findVal l k with
  | none => none
  | some v => some (v, (k, v) :: removeKey l k)

/-- `lru_cache` insertion on a miss: the new entry becomes the most
recently used; if the capacity is exceeded the last entry — the least
recently used — is discarded. -/
def lruPut {K V : Type} [DecidableEq K] (cap : Nat) (l : List (K × V))
    (k : K) (v : V) : List (K × V) :=
  let l2 := (k, v) :: l
  if cap < l2.length then l2.dropLast else l2

/-- The `maxsize` argument of the source's `lru_cache` decorator. -/
def CACHE_MAXSIZE : Nat := 1000

/-- Result of one call to the memoized facade: the boolean verdict, the
cache state after the call, and the observable events of the call. -/
structure VResult where
  verdict : Bool
  cache : List ((String × String) × Bool)
  events : List Event

/-- The full `check_accreditation` facade: on a cache hit the memoized
verdict is returned with no sleep and no registry lookup; on a miss the
call sleeps for the drawn duration `d`, runs the dispatch ladder under
the catch-all, and memoizes the verdict.  `d` stands for the value
produced by `random.uniform(1, 3)` for this call. -/
def check_accreditation (w : World) (d : ℚ)
    (cache : List ((String × String) × Bool)) (institution country : String) :
    VResult :=
  match lruGet cache (institution, country) with
  | some (v, c2) => ⟨v, c2, []⟩
  | none =>
      let v := check_accreditation_body w institution country
      ⟨v, lruPut CACHE_MAXSIZE cache (institution, country) v,
        Event.sleep d :: netEvents country⟩

/-- The event predicate "is an outbound registry lookup". -/
def isNetCall : Event → Bool
  | Event.netCall _ => true
  | Event.sleep _ => false

/-- Number of outbound registry lookups in a trace. -/
def netCallCount (evs : List Event) : Nat :=
  (evs.filter isNetCall).length

/-- The rendering of the boolean verdict in the UI (`main`, line 193):
`False` is presented as "❌ Not Recognized". -/
def accreditationStatus (accredited : Bool) : String :=
  if accredited then "✅ Recognized" else "❌ Not Recognized"

/-- A world in which every registry responds normally and every lookup
would succeed. -/
def okWorld : World where
  india :=
    { formPage := Except.ok { viewstate := some "VS", eventval := some "EV" }
      searchResult := fun _ _ _ => Except.ok "Recognized colleges table" }
  pakistan := { divs := Except.ok ["Quaid-i-Azam University"] }
  saudi := { body := Except.ok "King Saud University" }
  germany := { respond := fun _ => Except.ok "1 Treffer" }
  nigeria := { body := Except.ok "University of Lagos" }
  bangladesh := { items := Except.ok ["BRAC University"] }

/-- A world whose India form page parses but is missing the
`__VIEWSTATE` hidden input. -/
def viewstateWorld : World :=
  { okWorld with
    india :=
      { formPage := Except.ok { viewstate := none, eventval := some "EV" }
        searchResult := fun _ _ _ => Except.ok "irrelevant" } }

/-- A world whose India search reports "No College Found": the
institution is genuinely absent from the registry. -/
def absentWorld : World :=
  { okWorld with
    india :=
      { formPage := Except.ok { viewstate := some "VS", eventval := some "EV" }
        searchResult := fun _ _ _ => Except.ok "No College Found" } }

/-- A world whose India registry is unreachable (network failure on the
initial GET). -/
def netFailWorld : World :=
  { okWorld with
    india :=
      { formPage := Except.error PyErr.netError
        searchResult := fun _ _ _ => Except.ok "irrelevant" } }

/-- A world whose Pakistan listing contains one university-name div with
text "abc". -/
def pakAbcWorld : World :=
  { okWorld with pakistan := { divs := Except.ok ["abc"] } }

/-- A cache state holding exactly `CACHE_MAXSIZE` distinct keys (one
per synthetic institution name), used to exercise the eviction bound. -/
def bigCache : List ((String × String) × Bool) :=
  (List.range CACHE_MAXSIZE).map (fun n => ((toString n, "India"), true))

/-! ### Helper lemmas -/

theorem strFind_nil (l : List Char) : strFind [] l = true := by
  cases l <;> simp [strFind, strStarts]

theorem pyIn_empty (s : String) : pyIn "" s = true := by
  simpa [pyIn] using strFind_nil s.data

theorem removeKey_length_le {K V : Type} [DecidableEq K]
    (l : List (K × V)) (k : K) : (removeKey l k).length ≤ l.length := by
  induction l with
  | nil => simp [removeKey]
  | cons e rest ih =>
      obtain ⟨k', v⟩ := e
      by_cases h : k = k'
      · subst h
        simp [removeKey]
        omega
      · simp [removeKey, h]
        omega

theorem findVal_some_remove_lt {K V : Type} [DecidableEq K]
    (l : List (K × V)) (k : K) (v : V) (h : findVal l k = some v) :
    (removeKey l k).length < l.length := by
  induction l with
  | nil => simp [findVal] at h
  | cons e rest ih =>
      obtain ⟨k', v'⟩ := e
      by_cases hk : k = k'
      · subst hk
        have := removeKey_length_le rest k
        simp [removeKey]
        omega
      · simp [findVal, hk] at h
        have := ih h
        simp [removeKey, hk]
        omega

theorem lruPut_length_le {K V : Type} [DecidableEq K]
    (cap : Nat) (l : List (K × V)) (k : K) (v : V) (h : l.length ≤ cap) :
    (lruPut cap l k v).length ≤ cap := by
  unfold lruPut
  by_cases hc : cap < l.length + 1
  · simp [hc, List.length_dropLast]
    omega
  · simp [hc]
    omega

theorem dropLast_cons_ne_nil {α : Type} (a : α) (l : List α) (h : l ≠ []) :
    (a :: l).dropLast = a :: l.dropLast := by
  cases l with
  | nil => simp at h
  | cons b t => simp [List.dropLast_cons₂]

theorem lruPut_full_evict {K V : Type} [DecidableEq K]
    (cap : Nat) (l : List (K × V)) (k : K) (v : V)
    (hlen : l.length = cap) (hcap : 0 < cap) :
    lruPut cap l k v = (k, v) :: l.dropLast := by
  have hne : l ≠ [] := by
    intro h
    subst h
    simp at hlen
    omega
  unfold lruPut
  have hc : cap < l.length + 1 := by omega
  simp [hc, dropLast_cons_ne_nil _ _ hne]

theorem lruPut_head {K V : Type} [DecidableEq K]
    (cap : Nat) (l : List (K × V)) (k : K) (v : V) (hcap : 0 < cap) :
    ∃ t, lruPut cap l k v = (k, v) :: t := by
  unfold lruPut
  by_cases hc : cap < l.length + 1
  · have hne : l ≠ [] := by
      intro h
      subst h
      simp at hc
      omega
    exact ⟨l.dropLast, by simp [hc, dropLast_cons_ne_nil _ _ hne]⟩
  · exact ⟨l, by simp [hc]⟩

theorem lruGet_cons_self {K V : Type} [DecidableEq K]
    (k : K) (v : V) (t : List (K × V)) :
    lruGet ((k, v) :: t) k = some (v, (k, v) :: removeKey ((k, v) :: t) k) := by
  simp [lruGet, findVal]

theorem check_accreditation_hit (w : World) (d : ℚ)
    (cache : List ((String × String) × Bool)) (institution country : String)
    (v : Bool) (c2 : List ((String × String) × Bool))
    (h : lruGet cache (institution, country) = some (v, c2)) :
    check_accreditation w d cache institution country = ⟨v, c2, []⟩ := by
  simp [check_accreditation, h]

theorem check_accreditation_miss (w : World) (d : ℚ)
    (cache : List ((String × String) × Bool)) (institution country : String)
    (h : lruGet cache (institution, country) = none) :
    check_accreditation w d cache institution country =
      ⟨check_accreditation_body w institution country,
        lruPut CACHE_MAXSIZE cache (institution, country)
          (check_accreditation_body w institution country),
        Event.sleep d :: netEvents country⟩ := by
  simp [check_accreditation, h]

theorem lruGet_some_elim {K V : Type} [DecidableEq K]
    (l : List (K × V)) (k : K) (v : V) (c2 : List (K × V))
    (h : lruGet l k = some (v, c2)) :
    findVal l k = some v ∧ c2 = (k, v) :: removeKey l k := by
  unfold lruGet at h
  cases hf : findVal l k with
  | none => rw [hf] at h; simp at h
  | some v0 =>
      rw [hf] at h
      simp only [Option.some.injEq, Prod.mk.injEq] at h
      obtain ⟨h1, h2⟩ := h
      subst h1
      exact ⟨rfl, h2.symm⟩

theorem cache_hit_after_miss (w : World) (d d2 : ℚ)
    (cache : List ((String × String) × Bool)) (institution country : String)
    (hm : lruGet cache (institution, country) = none) :
    (check_accreditation w d2
        (check_accreditation w d cache institution country).cache
        institution country).verdict =
      (check_accreditation w d cache institution country).verdict ∧
    (check_accreditation w d2
        (check_accreditation w d cache institution country).cache
        institution country).events = [] := by
  have h1 := check_accreditation_miss w d cache institution country hm
  obtain ⟨t, ht⟩ := lruPut_head CACHE_MAXSIZE cache (institution, country)
    (check_accreditation_body w institution country)
    (by norm_num [CACHE_MAXSIZE])
  rw [h1]
  simp only []
  rw [ht]
  rw [check_accreditation_hit w d2
    (((institution, country), check_accreditation_body w institution country) :: t)
    institution country (check_accreditation_body w institution country) _
    (lruGet_cons_self (institution, country)
      (check_accreditation_body w institution country) t)]
  exact ⟨rfl, rfl⟩

/-! ### Claim theorems -/

/-- C3: for each of the six country values the dispatch ladder invokes
exactly the provider adapter associated with that country — India → UGC
India, Pakistan → HEC Pakistan, Saudi Arabia → MOE Saudi, Germany →
Anabin, Nigeria → NUC, Bangladesh → UGC Bangladesh — and no other: the
result is literally that adapter's, applied to that country's registry
alone. -/
theorem c3_dispatch_selects_matching_adapter (w : World) (institution : String) :
    dispatch w institution "India" = check_ugc_india w.india institution ∧
    dispatch w institution "Pakistan" = check_hec_pakistan w.pakistan institution ∧
    dispatch w institution "Saudi Arabia" = check_moe_saudi w.saudi institution ∧
    dispatch w institution "Germany" = check_anabin_germany w.germany institution ∧
    dispatch w institution "Nigeria" = check_nuc_nigeria w.nigeria institution ∧
    dispatch w institution "Bangladesh" = check_ugc_bangladesh w.bangladesh institution :=
  ⟨rfl, rfl, rfl, rfl, rfl, rfl⟩

/-- C6: for country Germany, a response body containing the literal
phrase "Keine Treffer gefunden" yields verdict false (NotRecognized), a
body without the phrase yields true (Recognized), and the institution
name is interpolated into the search URL as the `name` query
parameter. -/
theorem c6_germany_marker_phrase (reg : GermanyRegistry)
    (institution body : String)
    (h : reg.respond (anabinUrl institution) = Except.ok body) :
    (pyIn "Keine Treffer gefunden" body = true →
      check_anabin_germany reg institution = Except.ok false) ∧
    (pyIn "Keine Treffer gefunden" body = false →
      check_anabin_germany reg institution = Except.ok true) ∧
    anabinUrl institution =
      "https://anabin.kmk.org/no_cache/filter/institutionen.html?search=1&name="
        ++ institution := by
  refine ⟨?_, ?_, rfl⟩ <;> intro hb <;>
    · unfold check_anabin_germany
      rw [h]
      show Except.ok (! pyIn "Keine Treffer gefunden" body) = _
      rw [hb]
      rfl

/-- C6 witness: concrete mocked bodies with and without the marker
phrase produce NotRecognized and Recognized respectively. -/
theorem c6_germany_marker_phrase_witness :
    check_anabin_germany { respond := fun _ => Except.ok "Keine Treffer gefunden" }
      "Technische Universitaet Muenchen" = Except.ok false ∧
    check_anabin_germany { respond := fun _ => Except.ok "1 Treffer" }
      "Technische Universitaet Muenchen" = Except.ok true :=
  ⟨(c6_germany_marker_phrase
      { respond := fun _ => Except.ok "Keine Treffer gefunden" }
      "Technische Universitaet Muenchen" "Keine Treffer gefunden" rfl).1
      (by decide),
   (c6_germany_marker_phrase
      { respond := fun _ => Except.ok "1 Treffer" }
      "Technische Universitaet Muenchen" "1 Treffer" rfl).2.1
      (by decide)⟩

/-- C9: with the empty institution name, the Saudi Arabia and Nigeria
adapters return true (Recognized) whenever the page fetch succeeds,
regardless of the body: the empty string is a substring of every
body. -/
theorem c9_empty_name_always_recognized (sr : SaudiRegistry)
    (nr : NigeriaRegistry) (bs bn : String) :
    (sr.body = Except.ok bs → check_moe_saudi sr "" = Except.ok true) ∧
    (nr.body = Except.ok bn → check_nuc_nigeria nr "" = Except.ok true) := by
  constructor
  · intro h
    unfold check_moe_saudi
    rw [h]
    show Except.ok (pyIn "" (pyLower bs)) = _
    rw [pyIn_empty]
  · intro h
    unfold check_nuc_nigeria
    rw [h]
    show Except.ok (pyIn "" (pyLower bn)) = _
    rw [pyIn_empty]

/-- C9 witness: concrete successful fetches with arbitrary bodies both
yield Recognized for the empty institution name. -/
theorem c9_empty_name_always_recognized_witness :
    check_moe_saudi { body := Except.ok "no universities here at all" } ""
      = Except.ok true ∧
    check_nuc_nigeria { body := Except.ok "404 page" } "" = Except.ok true :=
  ⟨(c9_empty_name_always_recognized
      { body := Except.ok "no universities here at all" }
      { body := Except.ok "404 page" }
      "no universities here at all" "404 page").1 rfl,
   (c9_empty_name_always_recognized
      { body := Except.ok "no universities here at all" }
      { body := Except.ok "404 page" }
      "no universities here at all" "404 page").2 rfl⟩

/-- C10: the Pakistan adapter treats the institution name as a regex
pattern: the pattern "a.c" matches the div text "abc" although "a.c" is
not a literal (case-insensitive) substring of "abc"; and the invalid
pattern "(" raises `re.error`, which the facade's catch-all absorbs
into the verdict false. -/
theorem c10_pakistan_regex_semantics :
    check_hec_pakistan pakAbcWorld.pakistan "a.c" = Except.ok true ∧
    pyIn (pyLower "a.c") (pyLower "abc") = false ∧
    check_hec_pakistan pakAbcWorld.pakistan "(" = Except.error PyErr.reError ∧
    check_accreditation_body pakAbcWorld "(" "Pakistan" = false :=
  ⟨rfl, by decide, rfl, by decide⟩

/-- C1 counterexample: with the India form page missing the
`__VIEWSTATE` field, the entry point returns false — exactly the value
the UI renders as "❌ Not Recognized", and exactly the value produced
when the institution is genuinely absent ("No College Found").  There
is no distinct Unknown/LookupFailed verdict: a lookup failure is
indistinguishable from NotRecognized. -/
theorem c1_lookup_failure_counterexample :
    check_accreditation_body viewstateWorld "Delhi University" "India" = false ∧
    accreditationStatus
        (check_accreditation_body viewstateWorld "Delhi University" "India") =
      "❌ Not Recognized" ∧
    check_accreditation_body absentWorld "Delhi University" "India" = false :=
  ⟨by decide, rfl, by decide⟩

theorem exbind_ok {ε α β : Type} (a : α) (f : α → Except ε β) :
    (Except.ok a >>= f : Except ε β) = f a := rfl

theorem exbind_error {ε α β : Type} (e : ε) (f : α → Except ε β) :
    (Except.error e >>= f : Except ε β) = Except.error e := rfl

/-- C1 amended: when a registry lookup raises (network failure, missing
markup element, ...), the facade's catch-all absorbs the exception and
returns the boolean false — the same value rendered as
"❌ Not Recognized" — rather than a distinct Unknown verdict; in
particular a form page missing `__VIEWSTATE` makes the India adapter
raise `TypeError`, which is absorbed, not unhandled. -/
theorem c1_lookup_failure_conflated (w : World) (institution : String) :
    (∀ country e, dispatch w institution country = Except.error e →
      check_accreditation_body w institution country = false ∧
      accreditationStatus (check_accreditation_body w institution country) =
        "❌ Not Recognized") ∧
    (∀ page, w.india.formPage = Except.ok page → page.viewstate = none →
      dispatch w institution "India" = Except.error PyErr.typeError) := by
  constructor
  · intro country e h
    have hb : check_accreditation_body w institution country = false := by
      simp [check_accreditation_body, h]
    exact ⟨hb, by rw [hb]; rfl⟩
  · intro page hp hv
    show check_ugc_india w.india institution = Except.error PyErr.typeError
    unfold check_ugc_india
    rw [hp]
    simp only [exbind_ok]
    rw [hv]
    rfl

/-- C1 witness: the amended statement applied to the concrete world
whose form page lacks `__VIEWSTATE`. -/
theorem c1_lookup_failure_conflated_witness :
    check_accreditation_body viewstateWorld "X" "India" = false ∧
    dispatch viewstateWorld "X" "India" = Except.error PyErr.typeError :=
  ⟨((c1_lookup_failure_conflated viewstateWorld "X").1 "India"
      PyErr.typeError rfl).1,
   (c1_lookup_failure_conflated viewstateWorld "X").2
      { viewstate := none, eventval := some "EV" } rfl rfl⟩

/-- C2 counterexample: for the unknown country "France" the dispatch
ladder does not reject the request with an error — it falls through to
the silent default verdict false, and the facade still performs the
rate-limit sleep (the full trace is just the sleep, no lookup). -/
theorem c2_unknown_country_counterexample :
    dispatch okWorld "Some University" "France" = Except.ok false ∧
    (check_accreditation okWorld 2 [] "Some University" "France").verdict
      = false ∧
    (check_accreditation okWorld 2 [] "Some University" "France").events
      = [Event.sleep 2] :=
  ⟨rfl, rfl, rfl⟩

/-- C2 amended: a country outside the six-element set is not rejected
with a ConfigurationError; the dispatch ladder falls through to the
silent default verdict false.  No registry lookup is attempted (the
trace has no netCall event), but the rate-limit sleep is still
incurred. -/
theorem c2_unknown_country_silent_default (w : World) (d : ℚ)
    (cache : List ((String × String) × Bool)) (institution country : String)
    (hc : country ∉ COUNTRIES)
    (hm : lruGet cache (institution, country) = none) :
    dispatch w institution country = Except.ok false ∧
    (check_accreditation w d cache institution country).verdict = false ∧
    (check_accreditation w d cache institution country).events
      = [Event.sleep d] := by
  simp only [COUNTRIES, List.mem_cons, List.mem_singleton, not_or] at hc
  obtain ⟨h1, h2, h3, h4, h5, h6⟩ := hc
  have hd : dispatch w institution country = Except.ok false := by
    simp [dispatch, h1, h2, h3, h4, h5, h6]
  have hb : check_accreditation_body w institution country = false := by
    simp [check_accreditation_body, hd]
  have hn : netEvents country = [] := by
    simp [netEvents, h1, h2, h3, h4, h5, h6]
  rw [check_accreditation_miss w d cache institution country hm]
  exact ⟨hd, hb, by rw [show (⟨check_accreditation_body w institution country,
    lruPut CACHE_MAXSIZE cache (institution, country)
      (check_accreditation_body w institution country),
    Event.sleep d :: netEvents country⟩ : VResult).events
      = Event.sleep d :: netEvents country from rfl, hn]⟩

/-- C2 witness: the amended statement applied to the concrete unknown
country "France" with an empty cache. -/
theorem c2_unknown_country_silent_default_witness :
    dispatch okWorld "U" "France" = Except.ok false ∧
    (check_accreditation okWorld 2 [] "U" "France").verdict = false ∧
    (check_accreditation okWorld 2 [] "U" "France").events
      = [Event.sleep 2] :=
  c2_unknown_country_silent_default okWorld 2 [] "U" "France"
    (by decide) rfl

/-- C4: from an empty cache, two facade calls for the same
(institution, country) with an unchanged world return the same verdict,
perform exactly one outbound registry lookup in total, and the second
call has no events at all (no lookup, no rate-limit sleep). -/
theorem c4_cache_idempotence (w : World) (d d2 : ℚ)
    (institution country : String) (hc : country ∈ COUNTRIES) :
    (check_accreditation w d2
        (check_accreditation w d [] institution country).cache
        institution country).verdict =
      (check_accreditation w d [] institution country).verdict ∧
    netCallCount
        ((check_accreditation w d [] institution country).events ++
          (check_accreditation w d2
            (check_accreditation w d [] institution country).cache
            institution country).events) = 1 ∧
    (check_accreditation w d2
        (check_accreditation w d [] institution country).cache
        institution country).events = [] := by
  have hm : lruGet ([] : List ((String × String) × Bool))
      (institution, country) = none := rfl
  have hh := cache_hit_after_miss w d d2 [] institution country hm
  refine ⟨hh.1, ?_, hh.2⟩
  rw [hh.2, check_accreditation_miss w d [] institution country hm]
  have hne : netEvents country = [Event.netCall country] := by
    simp [COUNTRIES] at hc
    rcases hc with h | h | h | h | h | h <;> subst h <;> rfl
  show netCallCount ((Event.sleep d :: netEvents country) ++ []) = 1
  rw [hne]
  rfl

/-- C4 witness: concrete double lookup of ("X", "India") against the
all-healthy world. -/
theorem c4_cache_idempotence_witness :
    (check_accreditation okWorld 3
        (check_accreditation okWorld 2 [] "X" "India").cache
        "X" "India").verdict =
      (check_accreditation okWorld 2 [] "X" "India").verdict ∧
    netCallCount
        ((check_accreditation okWorld 2 [] "X" "India").events ++
          (check_accreditation okWorld 3
            (check_accreditation okWorld 2 [] "X" "India").cache
            "X" "India").events) = 1 ∧
    (check_accreditation okWorld 3
        (check_accreditation okWorld 2 [] "X" "India").cache
        "X" "India").events = [] :=
  c4_cache_idempotence okWorld 2 3 "X" "India" (by decide)

/-- C7 counterexample: with the India registry unreachable, the first
facade call returns the failure verdict false and caches it; the second
call for the same key is served from the cache (no events at all) and
repeats the failure verdict.  The failure is cached by the very same
mechanism and lifetime as successful verdicts — it is not "not cached",
and the model (like the source) has no TTL that could expire it. -/
theorem c7_transient_failure_cached_counterexample :
    (check_accreditation netFailWorld 2 [] "IIT Bombay" "India").verdict
      = false ∧
    (check_accreditation netFailWorld 3
        (check_accreditation netFailWorld 2 [] "IIT Bombay" "India").cache
        "IIT Bombay" "India").events = [] ∧
    (check_accreditation netFailWorld 3
        (check_accreditation netFailWorld 2 [] "IIT Bombay" "India").cache
        "IIT Bombay" "India").verdict = false :=
  ⟨rfl, rfl, rfl⟩

/-- C7 amended: a verdict produced by a failed lookup (an adapter
exception) is cached exactly like a successful verdict: the facade
memoizes the absorbed false, and a later call for the same key is a
cache hit returning that false with no new lookup; no expiry mechanism
distinguishes it from Recognized/NotRecognized entries. -/
theorem c7_failure_cached_identically (w : World) (d d2 : ℚ)
    (cache : List ((String × String) × Bool)) (institution country : String)
    (e : PyErr)
    (he : dispatch w institution country = Except.error e)
    (hm : lruGet cache (institution, country) = none) :
    (check_accreditation w d cache institution country).verdict = false ∧
    (check_accreditation w d2
        (check_accreditation w d cache institution country).cache
        institution country).verdict = false ∧
    (check_accreditation w d2
        (check_accreditation w d cache institution country).cache
        institution country).events = [] := by
  have hb : check_accreditation_body w institution country = false := by
    simp [check_accreditation_body, he]
  have hh := cache_hit_after_miss w d d2 cache institution country hm
  have h1 : (check_accreditation w d cache institution country).verdict
      = false := by
    rw [check_accreditation_miss w d cache institution country hm]
    exact hb
  exact ⟨h1, by rw [hh.1, h1], hh.2⟩

/-- C7 witness: the amended statement applied to the concrete
unreachable-India world with an empty cache. -/
theorem c7_failure_cached_identically_witness :
    (check_accreditation netFailWorld 2 [] "X" "India").verdict = false ∧
    (check_accreditation netFailWorld 3
        (check_accreditation netFailWorld 2 [] "X" "India").cache
        "X" "India").verdict = false ∧
    (check_accreditation netFailWorld 3
        (check_accreditation netFailWorld 2 [] "X" "India").cache
        "X" "India").events = [] :=
  c7_failure_cached_identically netFailWorld 2 3 [] "X" "India"
    PyErr.netError rfl rfl

/-- C8: for any delay in [1, 3] (the support of `random.uniform(1, 3)`)
a cache-missing facade call's trace is exactly the sleep followed by
the outbound registry lookup — the delay blocks before the lookup
fires, for each such call — while a cache hit produces no events,
bypassing both the delay and the lookup. -/
theorem c8_rate_limit_trace (w : World) (d : ℚ)
    (cache : List ((String × String) × Bool)) (institution country : String)
    (_hlo : 1 ≤ d) (_hhi : d ≤ 3) :
    (lruGet cache (institution, country) = none → country ∈ COUNTRIES →
      (check_accreditation w d cache institution country).events =
        [Event.sleep d, Event.netCall country]) ∧
    (∀ v c2, lruGet cache (institution, country) = some (v, c2) →
      (check_accreditation w d cache institution country).events = []) := by
  constructor
  · intro hm hc
    rw [check_accreditation_miss w d cache institution country hm]
    have hne : netEvents country = [Event.netCall country] := by
      simp [COUNTRIES] at hc
      rcases hc with h | h | h | h | h | h <;> subst h <;> rfl
    show Event.sleep d :: netEvents country = [Event.sleep d, Event.netCall country]
    rw [hne]
  · intro v c2 h
    rw [check_accreditation_hit w d cache institution country v c2 h]

/-- C8 witness: a concrete miss (delay 2, empty cache) sleeps and then
fires the lookup; a concrete hit produces no events. -/
theorem c8_rate_limit_trace_witness :
    (check_accreditation okWorld 2 [] "X" "India").events =
      [Event.sleep 2, Event.netCall "India"] ∧
    (check_accreditation okWorld 2 [(("X", "India"), true)] "X" "India").events
      = [] :=
  ⟨(c8_rate_limit_trace okWorld 2 [] "X" "India"
      (by norm_num) (by norm_num)).1 rfl (by decide),
   (c8_rate_limit_trace okWorld 2 [(("X", "India"), true)] "X" "India"
      (by norm_num) (by norm_num)).2 true [(("X", "India"), true)] rfl⟩

/-- C5: the cache never exceeds 1000 entries — any facade call from a
state within the bound stays within it — and a miss on a full cache of
1000 distinct keys evicts exactly the least-recently-used entry: the
new state is the fresh entry in front of the old state minus its last
(least recently used) element. -/
theorem c5_cache_bound_and_lru_eviction (w : World) (d : ℚ)
    (cache : List ((String × String) × Bool)) (institution country : String) :
    (cache.length ≤ CACHE_MAXSIZE →
      (check_accreditation w d cache institution country).cache.length
        ≤ CACHE_MAXSIZE) ∧
    (cache.length = CACHE_MAXSIZE →
      lruGet cache (institution, country) = none →
      (check_accreditation w d cache institution country).cache =
        ((institution, country), check_accreditation_body w institution country)
          :: cache.dropLast) := by
  constructor
  · intro hlen
    cases hg : lruGet cache (institution, country) with
    | none =>
        rw [check_accreditation_miss w d cache institution country hg]
        exact lruPut_length_le _ _ _ _ hlen
    | some p =>
        obtain ⟨v, c2⟩ := p
        obtain ⟨hf, hc2⟩ :=
          lruGet_some_elim cache (institution, country) v c2 hg
        rw [check_accreditation_hit w d cache institution country v c2 hg]
        show c2.length ≤ CACHE_MAXSIZE
        rw [hc2]
        have := findVal_some_remove_lt cache (institution, country) v hf
        simp only [List.length_cons]
        omega
  · intro hlen hm
    rw [check_accreditation_miss w d cache institution country hm]
    exact lruPut_full_evict _ _ _ _ hlen (by norm_num [CACHE_MAXSIZE])

theorem findVal_none_of_all {K V : Type} [DecidableEq K]
    (l : List (K × V)) (k : K) (h : ∀ e ∈ l, e.1 ≠ k) :
    findVal l k = none := by
  induction l with
  | nil => rfl
  | cons e rest ih =>
      obtain ⟨k', v⟩ := e
      have hk : k ≠ k' := fun hkk => h (k', v) (by simp) (by simp [hkk])
      simp only [findVal, if_neg hk]
      exact ih fun e he => h e (by simp [he])

theorem bigCache_no_germany :
    lruGet bigCache ("X", "Germany") = none := by
  unfold lruGet
  rw [findVal_none_of_all]
  intro e he
  simp only [bigCache, List.mem_map, List.mem_range] at he
  obtain ⟨n, _, rfl⟩ := he
  intro hcontra
  have : "India" = "Germany" := congrArg Prod.snd hcontra
  simp at this

/-- C5 witness: a concrete full cache of 1000 distinct keys stays at
the bound, and inserting a 1001st distinct key evicts exactly the last
(least recently used) entry. -/
theorem c5_cache_bound_and_lru_eviction_witness :
    (check_accreditation okWorld 2 bigCache "X" "Germany").cache.length
      ≤ CACHE_MAXSIZE ∧
    (check_accreditation okWorld 2 bigCache "X" "Germany").cache =
      (("X", "Germany"), check_accreditation_body okWorld "X" "Germany")
        :: bigCache.dropLast :=
  ⟨(c5_cache_bound_and_lru_eviction okWorld 2 bigCache "X" "Germany").1
      (by simp [bigCache]),
   (c5_cache_bound_and_lru_eviction okWorld 2 bigCache "X" "Germany").2
      (by simp [bigCache]) bigCache_no_germany⟩
